import Mathlib

/-!
Verification development for the geometry-node backend (apps/api).

The file embeds, as executable Lean definitions, the pieces of the code
that the properties below are about:

* the SEARCH/REPLACE patch engine (`applyDiff`) that the workflow's
  ApplyDiff step calls — this engine is absent from the source snapshot
  (only its caller `ApplyDiffNode.exec_async` and the line-number variant
  in `utils/apply_diff.py` are present), so it is modelled from the spec;
* the line-number patch function `apply_diff` of `utils/apply_diff.py`
  (the arms the properties mention);
* the finalize phase of the edit-intent workflow nodes and the edge table
  of `create_agent_flow` (`agent/flow.py`);
* the diff validation of `ModifySceneNode.exec_async` and the control flow
  of `ApplyDiffNode.exec_async` (`agent/flow.py`);
* the job layer `run_agent_flow_async` (`utils/background_tasks.py`) and
  the subscriber generator `event_stream` of
  `routers/ai_router.py::get_job_stream`.

Strings are modelled through their character lists so that every
definition evaluates by kernel reduction.
-/

/-! ### Line splitting and joining

Python-style helpers used by both patch engines.  Line boundaries are
modelled as the single character `'\n'` (the documents involved are JSON
scene texts produced and joined with `"\n"`). -/

/-- Characters Python's `str.strip()` removes (ASCII whitespace). -/
def isPyWs (c : Char) : Bool :=
  c = ' ' || c = '\t' || c = '\n' || c = '\r' || c = '\x0b' || c = '\x0c'

/-- Model of Python `str.strip()`: drop ASCII whitespace at both ends. -/
def pyStrip (s : String) : String :=
  String.mk (((s.data.dropWhile isPyWs).reverse.dropWhile isPyWs).reverse)

/-- Model of Python `str.startswith(p)`. -/
def startsWithStr (s p : String) : Bool :=
  p.data.isPrefixOf s.data

/-- Model of Python `str.endswith(p)`. -/
def endsWithStr (s p : String) : Bool :=
  p.data.reverse.isPrefixOf s.data.reverse

/-- Helper for `splitLines`: accumulate the current line (reversed). -/
def splitLinesAux : List Char → List Char → List String
  | [], acc => [String.mk acc.reverse]
  | c :: cs, acc =>
    if c = '\n' then String.mk acc.reverse :: splitLinesAux cs []
    else splitLinesAux cs (c :: acc)

/-- Model of Python `s.split("\n")`: split a string at newline characters. -/
def splitLines (s : String) : List String :=
  splitLinesAux s.data []

/-- Model of Python `"\n".join(lines)`. -/
def joinLines : List String → String
  | [] => ""
  | [l] => l
  | l :: ls => l ++ "\n" ++ joinLines ls

/-- Model of Python `str.splitlines()` for `'\n'`-separated text: like
`split("\n")` but a trailing newline does not contribute an empty final
line, and the empty string yields no lines. -/
def pySplitlines (s : String) : List String :=
  let parts := splitLines s
  if parts.getLast? = some "" then parts.dropLast else parts

/-! ### SEARCH/REPLACE patch engine

Modelled from the spec: the block-based engine `applyDiff(originalText,
diffText)` wired into the workflow's ApplyDiff step is missing from the
source snapshot (spec §9 records two competing patch implementations;
only the unused line-number variant is present under `utils/`).  The
definitions below follow spec §4.3: blocks are delimited by the three
literal marker lines, extracted left to right; each block is matched as a
literal contiguous line subsequence against the current document, first
match wins; a missing match aborts the whole call with a "search block
not found" error carrying the search text. -/

def searchMarker : String := "<<<<<<< SEARCH"

def sepMarker : String := "======="

def replaceMarker : String := ">>>>>>> REPLACE"

/-- A diff block: an ordered pair of search lines and replacement lines. -/
structure DiffBlock where
  search : List String
  replace : List String
deriving Repr, DecidableEq

/-- Lines strictly before the first line equal to `marker`, and the lines
after it; `none` when no line equals `marker`.  A payload line carrying a
backslash-escaped marker differs from the marker line itself, so it is
never treated as a delimiter (spec §4.3 escape rule). -/
def extractUntil (marker : String) : List String → Option (List String × List String)
  | [] => none
  | l :: ls =>
    if l = marker then some ([], ls)
    else
      match extractUntil marker ls with
      | some (pre, rest) => some (l :: pre, rest)
      | none => none

/-- Fuelled block extraction: repeatedly read a SEARCH section, a
separator and a REPLACE section; stop when the markers run out.  Each
round consumes at least the marker lines, so `length + 1` fuel suffices. -/
def parseBlocksAux : Nat → List String → List DiffBlock
  | 0, _ => []
  | Nat.succ fuel, ls =>
    match extractUntil searchMarker ls with
    | none => []
    | some (_, afterSearch) =>
      match extractUntil sepMarker afterSearch with
      | none => []
      | some (searchLines, afterSep) =>
        match extractUntil replaceMarker afterSep with
        | none => []
        | some (replaceLines, rest) =>
          { search := searchLines, replace := replaceLines } :: parseBlocksAux fuel rest

/-- Extract the diff blocks of a diff text, in left-to-right order. -/
def parseBlocks (ls : List String) : List DiffBlock :=
  parseBlocksAux (ls.length + 1) ls

/-- Earliest index at which `search` occurs as a contiguous subsequence
of `doc` (first-match semantics), `none` when it does not occur. -/
def findSubseq (search : List String) : List String → Option Nat
  | [] => if search.isPrefixOf ([] : List String) then some 0 else none
  | d :: ds =>
    if search.isPrefixOf (d :: ds) then some 0
    else (findSubseq search ds).map (· + 1)

/-- Error text of a failed block match; it includes the search text. -/
def notFoundMsg (search : List String) : String :=
  "search block not found: " ++ joinLines search

/-- Apply one block to the current document lines: splice the replacement
over the first match of the search lines, or fail. -/
def applyBlock (doc : List String) (b : DiffBlock) : Except String (List String) :=
  match findSubseq b.search doc with
  | some i => Except.ok (doc.take i ++ b.replace ++ doc.drop (i + b.search.length))
  | none => Except.error (notFoundMsg b.search)

/-- Apply the blocks in order, each against the current document; the
first failing block aborts the whole application. -/
def applyBlocks : List String → List DiffBlock → Except String (List String)
  | doc, [] => Except.ok doc
  | doc, b :: bs =>
    match applyBlock doc b with
    | Except.ok d => applyBlocks d bs
    | Except.error e => Except.error e

/-- Modelled from the spec: the SEARCH/REPLACE patch engine
`applyDiff(originalText, diffText)` (spec §4.3), absent from the source
snapshot.  Split, apply every block in textual order, rejoin. -/
def applyDiff (originalText diffText : String) : Except String String :=
  match applyBlocks (splitLines originalText) (parseBlocks (splitLines diffText)) with
  | Except.ok lines => Except.ok (joinLines lines)
  | Except.error e => Except.error e

/-! ### Line-number patch function of `utils/apply_diff.py`

Embedding of the arms of `apply_diff(file_content, modifications)` that
the verified properties mention (`"replace"`, `"delete"`, `"add"`); the
remaining arms (`"replace_range"`, `"move"`, `"merge"`, `"split"`) are
not exercised by any property below.  `line_number` values are Python
integers, hence `Int`; the function sorts the operations by their
`line_number` key (Python's stable sort) before folding them over the
line list. -/

/-- One modification operation of the line-number patch function. -/
inductive LineMod where
  | replace (line_number : Int) (new_content : String)
  | delete (line_number : Int)
  | add (line_number : Int) (new_content : String)
deriving Repr, DecidableEq

/-- The `x.get("line_number", 0)` sort key. -/
def lineModKey : LineMod → Int
  | LineMod.replace n _ => n
  | LineMod.delete n => n
  | LineMod.add n _ => n

/-- Insert an operation into an already key-sorted list, before the
first entry with a strictly greater key; used to model Python's stable
`list.sort(key=...)`. -/
def insertByKey (x : LineMod) : List LineMod → List LineMod
  | [] => [x]
  | y :: ys =>
    if lineModKey y < lineModKey x then y :: insertByKey x ys
    else x :: y :: ys

/-- Stable sort by `lineModKey`, modelling `modifications.sort(key=...)`:
entries with equal keys keep their original relative order. -/
def sortByLineKey : List LineMod → List LineMod
  | [] => []
  | x :: xs => insertByKey x (sortByLineKey xs)

/-- One iteration of the modification loop of `apply_diff`: the
`line_number - 1` index is range-checked with `0 <= i < len(lines)`;
out of range, `replace` and `delete` do nothing while `add` appends. -/
def applyLineMod (lines : List String) (mod : LineMod) : List String :=
  match mod with
  | LineMod.replace n c =>
    let i := n - 1
    if 0 ≤ i ∧ i < (lines.length : Int) then lines.set i.toNat c else lines
  | LineMod.delete n =>
    let i := n - 1
    if 0 ≤ i ∧ i < (lines.length : Int) then lines.eraseIdx i.toNat else lines
  | LineMod.add n c =>
    let i := n - 1
    if 0 ≤ i ∧ i < (lines.length : Int) then lines.insertIdx i.toNat c
    else lines ++ [c]

/-- Embedding of `apply_diff` of `utils/apply_diff.py`: split into lines
(`splitlines()`), sort the operations by line number, apply them in
order, rejoin with `"\n"`. -/
def apply_diff (file_content : String) (modifications : List LineMod) : String :=
  let mods := sortByLineKey modifications
  joinLines (mods.foldl applyLineMod (pySplitlines file_content))

/-! ### Events, the job layer and the subscriber stream -/

/-- An SSE message as enqueued by the workflow: Python dicts carrying a
`"step"` classifier (`none` models a dict without that key, such as the
synthetic `{"type": "error", "message": "Job not found"}` record) and a
payload. -/
structure Msg where
  step : Option String
  content : String
deriving Repr, DecidableEq

/-- The terminal message `run_agent_flow_async` enqueues after a
successful flow run. -/
def doneMsg : Msg :=
  { step := some "done", content := "Agent flow completed" }

/-- The synthetic record yielded for an unknown job id:
`{"type": "error", "message": "Job not found"}` (it has no `"step"` key). -/
def jobNotFoundMsg : Msg :=
  { step := none, content := "Job not found" }

/-- Embedding of `run_agent_flow_async` of `utils/background_tasks.py`.
The flow run is summarised by the events it enqueued and whether it
returned or raised; the job layer appends the `"done"` terminal message
only after a normal return (there is no `try`/`finally`), and a raised
exception propagates out of the task.  Result: the messages enqueued to
the job's queue, and the exception escaping the task, if any. -/
def run_agent_flow_async (flowEvents : List Msg) (flowResult : Except String Unit) :
    List Msg × Option String :=
  match flowResult with
  | Except.ok _ => (flowEvents ++ [doneMsg], none)
  | Except.error e => (flowEvents, some e)

/-- How a run of the subscriber generator ends. -/
inductive StreamEnd where
  | completed
  | raisedKeyError
  | awaitingForever
deriving Repr, DecidableEq

/-- The consumption loop of `event_stream`: yield queued messages in
order; after yielding a message whose `"step"` is `"done"`, stop.  The
Boolean records whether the loop broke (rather than exhausting the queue
and awaiting a next message forever). -/
def drainQueue : List Msg → List Msg × Bool
  | [] => ([], false)
  | m :: ms =>
    if m.step = some "done" then ([m], true)
    else
      let rest := drainQueue ms
      (m :: rest.1, rest.2)

/-- Look a job id up in the registry `app.state.jobs`. -/
def lookupJob : List (String × List Msg) → String → Option (List Msg)
  | [], _ => none
  | (k, q) :: rest, j => if k = j then some q else lookupJob rest j

/-- The `del app.state.jobs[job_id]` deregistration. -/
def removeJob : List (String × List Msg) → String → List (String × List Msg)
  | [], _ => []
  | (k, q) :: rest, j => if k = j then rest else (k, q) :: removeJob rest j

/-- Embedding of the `event_stream` generator of
`routers/ai_router.py::get_job_stream`, run against the finite sequence
of messages ever enqueued for each job.  For an unknown job id the
generator yields the synthetic error record and then — the `if` body has
no `return` — falls through to `app.state.jobs[job_id]`, which raises
`KeyError` out of the stream.  For a registered job it forwards queued
messages until one with step `"done"` is yielded, then deregisters the
job and stops; if no such message is ever enqueued it awaits forever.
Result: the yielded messages, how the generator ends, and the registry
afterwards. -/
def event_stream (jobs : List (String × List Msg)) (jobId : String) :
    List Msg × StreamEnd × List (String × List Msg) :=
  match lookupJob jobs jobId with
  | none => ([jobNotFoundMsg], StreamEnd.raisedKeyError, jobs)
  | some q =>
    let drained := drainQueue q
    (drained.1,
     if drained.2 then StreamEnd.completed else StreamEnd.awaitingForever,
     if drained.2 then removeJob jobs jobId else jobs)

/-! ### Workflow nodes of `agent/flow.py` -/

/-- The part of the shared workflow context the finalize phases touch:
`shared["diff_content"]`.  The outer `Option` distinguishes an absent key
from a key set to `None`. -/
structure SharedCtx where
  diff_content : Option (Option String)
deriving Repr, DecidableEq

/-- Finalize phase of `ModifySceneNode`: store the (possibly `None`)
diff into the shared context and return the `"apply_diff"` label. -/
def modifyScenePost (shared : SharedCtx) (exec_res : Option String) : SharedCtx × String :=
  ({ shared with diff_content := some exec_res }, "apply_diff")

/-- Finalize phase of `ModifyNodeNode`: returns `"done"` and stores
nothing. -/
def modifyNodePost (shared : SharedCtx) : SharedCtx × String :=
  (shared, "done")

/-- Finalize phase of `GenerateSceneNode`: returns `"done"` and stores
nothing. -/
def generateScenePost (shared : SharedCtx) : SharedCtx × String :=
  (shared, "done")

/-- Finalize phase of `GenerateNodeNode`: returns `"done"` and stores
nothing. -/
def generateNodePost (shared : SharedCtx) : SharedCtx × String :=
  (shared, "done")

/-- The edge table wired by `create_agent_flow`, as
`((source node, action label), target node)` entries. -/
def flowEdges : List ((String × String) × String) :=
  [(("IntentRecognition", "modify_scene"), "ModifyScene"),
   (("IntentRecognition", "modify_node"), "ModifyNode"),
   (("IntentRecognition", "generate_scene"), "GenerateScene"),
   (("IntentRecognition", "generate_node"), "GenerateNode"),
   (("IntentRecognition", "chat"), "Chat"),
   (("ModifyScene", "apply_diff"), "ApplyDiff"),
   (("ModifyNode", "apply_diff"), "ApplyDiff"),
   (("GenerateScene", "apply_diff"), "ApplyDiff"),
   (("GenerateNode", "apply_diff"), "ApplyDiff")]

/-- Successor lookup in the edge table: the node reached from `node` on
`label`, or `none` when the run terminates there. -/
def successor (node label : String) : Option String :=
  (flowEdges.find? (fun e => e.1.1 == node && e.1.2 == label)).map (·.2)

/-- The response-buffer post-processing of `ModifySceneNode.exec_async`:
strip a leading ` ```diff ` fence (7 characters) and a trailing ` ``` `
fence (3 characters), stripping whitespace after each cut and once more
at the end. -/
def stripDiffFences (resp : String) : String :=
  let r1 :=
    if startsWithStr resp "```diff" then pyStrip (String.mk (resp.data.drop 7))
    else resp
  let r2 :=
    if endsWithStr r1 "```" then pyStrip (String.mk (r1.data.take (r1.data.length - 3)))
    else r1
  pyStrip r2

/-- The diff validation of `ModifySceneNode.exec_async`: after fence
stripping, a buffer that does not begin with the SEARCH marker or does
not end with the REPLACE marker is replaced by `None`; otherwise the
buffer itself is the diff. -/
def modifySceneDiff (resp_buffer : String) : Option String :=
  let b := stripDiffFences resp_buffer
  if !(startsWithStr b searchMarker) || !(endsWithStr b replaceMarker) then none
  else some b

/-- How the execute phase of a node ends. -/
inductive ExecEnd where
  | returned (label : String)
  | raised (exc : String)
  | jsonPhase (patched : String)
deriving Repr, DecidableEq

/-- Embedding of `ApplyDiffNode.exec_async` (the file-dump writes are
I/O only and carry no data flow).  A `None` diff returns `"finish"` at
once, with no patch applied and no event published.  Otherwise the patch
engine is called inside `try`/`except`: the `except` arm only logs, so
on failure the result keeps its `"null"` sentinel value; `json.loads`
then turns `"null"` into Python `None`, and the following
`apply_diff_dict["nodes"]` subscript raises a `TypeError` that escapes
the phase with no event published.  On a successful patch the execution
continues into `json.loads` of the patched text and the
`"edit_finished"` publish; that continuation is summarised by
`ExecEnd.jsonPhase`, which no property below exercises. -/
def applyDiffExec (original_scene_json : String) (diff_content : Option String) :
    List Msg × ExecEnd :=
  match diff_content with
  | none => ([], ExecEnd.returned "finish")
  | some d =>
    let result :=
      match applyDiff original_scene_json d with
      | Except.ok s => s
      | Except.error _ => "null"
    if result = "null" then
      ([], ExecEnd.raised "TypeError: NoneType is not subscriptable")
    else
      ([], ExecEnd.jsonPhase result)

/-- Finalize phase of `ApplyDiffNode`: always the label `"done"`. -/
def applyDiffPost (_exec_res : ExecEnd) : String :=
  "done"

/-! ### Helper lemmas -/

/-- Block application over an appended list runs the prefix first and
continues (or aborts) accordingly. -/
theorem applyBlocks_append (pre rest : List DiffBlock) :
    ∀ doc, applyBlocks doc (pre ++ rest) =
      match applyBlocks doc pre with
      | Except.ok d => applyBlocks d rest
      | Except.error e => Except.error e := by
  induction pre with
  | nil => intro doc; rfl
  | cons b bs ih =>
    intro doc
    simp only [List.cons_append, applyBlocks]
    cases applyBlock doc b with
    | ok d => exact ih d
    | error e => rfl

/-- In the yielded prefix of a queue, a message with step `"done"` is
always the last one yielded. -/
theorem drainQueue_done_last (q : List Msg) :
    ∀ pre m post, (drainQueue q).1 = pre ++ m :: post →
      m.step = some "done" → post = [] := by
  induction q with
  | nil =>
    intro pre m post h _
    simp [drainQueue] at h
  | cons x xs ih =>
    intro pre m post h hm
    by_cases hx : x.step = some "done"
    · simp only [drainQueue, hx, if_pos] at h
      cases pre with
      | nil =>
        simp at h
        exact h.2
      | cons p ps =>
        simp at h
    · simp only [drainQueue, hx, if_neg, reduceIte] at h
      cases pre with
      | nil =>
        simp at h
        exact absurd (h.1 ▸ hm) hx
      | cons p ps =>
        simp at h
        exact ih ps m post h.2 hm

/-- The consumption loop breaks (instead of awaiting forever) exactly
when some queued message has step `"done"`. -/
theorem drainQueue_broke_iff (q : List Msg) :
    (drainQueue q).2 = true ↔ ∃ m ∈ q, m.step = some "done" := by
  induction q with
  | nil => simp [drainQueue]
  | cons x xs ih =>
    by_cases hx : x.step = some "done"
    · simp [drainQueue, hx]
    · simp [drainQueue, hx, ih]

/-! ### Claim theorems -/

/-- C1: for the original text "line1\nline2\nline3" and the single-block
diff replacing the search line "line2" by "lineX", applyDiff returns
exactly "line1\nlineX\nline3". -/
theorem c1_round_trip :
    applyDiff "line1\nline2\nline3"
        "<<<<<<< SEARCH\nline2\n=======\nlineX\n>>>>>>> REPLACE"
      = Except.ok "line1\nlineX\nline3" := rfl

/-- C2: whenever a diff contains a block whose search lines do not occur
as a contiguous subsequence of the current document (the document after
the blocks preceding it have been applied), applyDiff fails with the
not-found error carrying that search text, and returns no output string. -/
theorem c2_not_found_aborts (orig diffText : String)
    (pre post : List DiffBlock) (b : DiffBlock) (d : List String)
    (hparse : parseBlocks (splitLines diffText) = pre ++ b :: post)
    (hpre : applyBlocks (splitLines orig) pre = Except.ok d)
    (hmiss : findSubseq b.search d = none) :
    applyDiff orig diffText = Except.error (notFoundMsg b.search)
      ∧ ∀ out, applyDiff orig diffText ≠ Except.ok out := by
  have key : applyBlocks (splitLines orig) (parseBlocks (splitLines diffText))
      = Except.error (notFoundMsg b.search) := by
    rw [hparse, applyBlocks_append, hpre]
    simp [applyBlocks, applyBlock, hmiss]
  have h1 : applyDiff orig diffText = Except.error (notFoundMsg b.search) := by
    unfold applyDiff
    rw [key]
  refine ⟨h1, ?_⟩
  intro out hout
  rw [h1] at hout
  exact Except.noConfusion hout

/-- C2 witness: the spec's concrete failure example, original "a\nb\nc"
with a block searching for the absent line "z". -/
theorem c2_not_found_aborts_witness :
    (parseBlocks (splitLines "<<<<<<< SEARCH\nz\n=======\nq\n>>>>>>> REPLACE")
        = [] ++ { search := ["z"], replace := ["q"] } :: []
      ∧ applyBlocks (splitLines "a\nb\nc") [] = Except.ok ["a", "b", "c"]
      ∧ findSubseq ["z"] ["a", "b", "c"] = none)
    ∧ (applyDiff "a\nb\nc" "<<<<<<< SEARCH\nz\n=======\nq\n>>>>>>> REPLACE"
        = Except.error (notFoundMsg ["z"])
      ∧ ∀ out, applyDiff "a\nb\nc" "<<<<<<< SEARCH\nz\n=======\nq\n>>>>>>> REPLACE"
          ≠ Except.ok out) :=
  ⟨⟨rfl, rfl, rfl⟩,
    c2_not_found_aborts "a\nb\nc" "<<<<<<< SEARCH\nz\n=======\nq\n>>>>>>> REPLACE"
      [] [] { search := ["z"], replace := ["q"] } ["a", "b", "c"] rfl rfl rfl⟩

/-- C3 counterexample: ModifyNodeNode's finalize phase returns the label
"done", not "apply_diff", so not every edit-intent node transitions to
the ApplyDiff state. -/
theorem c3_counterexample :
    (modifyNodePost { diff_content := none }).2 ≠ "apply_diff" := by decide

/-- C3 amended: only ModifyScene stores the (possibly null) diff into
the shared context and returns "apply_diff" (for which the wiring has an
edge to ApplyDiff); ModifyNode, GenerateScene and GenerateNode store
nothing and return "done", a label with no outgoing edge, so their runs
terminate without reaching ApplyDiff. -/
theorem c3_amended_only_modify_scene (shared : SharedCtx) (ex : Option String) :
    modifyScenePost shared ex = ({ shared with diff_content := some ex }, "apply_diff")
    ∧ modifyNodePost shared = (shared, "done")
    ∧ generateScenePost shared = (shared, "done")
    ∧ generateNodePost shared = (shared, "done")
    ∧ successor "ModifyScene" "apply_diff" = some "ApplyDiff"
    ∧ successor "ModifyNode" "apply_diff" = some "ApplyDiff"
    ∧ successor "ModifyNode" "done" = none
    ∧ successor "GenerateScene" "done" = none
    ∧ successor "GenerateNode" "done" = none :=
  ⟨rfl, rfl, rfl, rfl, rfl, rfl, rfl, rfl, rfl⟩

/-- C4: when the flow run raises (here after having published only a
"thinking" event), the job layer publishes no terminal event at all —
the exception escapes the task and the subscriber of the job's queue
awaits forever. -/
theorem c4_no_terminal_event_on_exception :
    (run_agent_flow_async [{ step := some "thinking", content := "Starting intent recognition" }]
        (Except.error "KeyError: next_action")).1
      = [{ step := some "thinking", content := "Starting intent recognition" }]
    ∧ (run_agent_flow_async [{ step := some "thinking", content := "Starting intent recognition" }]
        (Except.error "KeyError: next_action")).2
      = some "KeyError: next_action"
    ∧ (event_stream
        [("job-1", [{ step := some "thinking", content := "Starting intent recognition" }])]
        "job-1").2.1
      = StreamEnd.awaitingForever :=
  ⟨rfl, rfl, rfl⟩

/-- C5: subscribing to an unregistered job id yields the synthetic error
record and then raises KeyError out of the stream (the unknown-job
branch has no return, so control falls through to the registry
subscript), instead of terminating without an exception. -/
theorem c5_unknown_job_raises :
    event_stream [] "missing-job" = ([jobNotFoundMsg], StreamEnd.raisedKeyError, [])
    ∧ StreamEnd.raisedKeyError ≠ StreamEnd.completed :=
  ⟨rfl, by decide⟩

/-- C6 counterexample: for a registered job whose queue holds an "error"
event followed by further events, the stream keeps yielding after the
"error" event — only "done" terminates it. -/
theorem c6_counterexample :
    (event_stream
        [("j", [{ step := some "error", content := "boom" },
                { step := some "progress", content := "later" }, doneMsg])]
        "j").1
      = [{ step := some "error", content := "boom" },
         { step := some "progress", content := "later" }, doneMsg]
    ∧ ({ step := some "error", content := "boom" } : Msg).step = some "error"
    ∧ 1 < (event_stream
        [("j", [{ step := some "error", content := "boom" },
                { step := some "progress", content := "later" }, doneMsg])]
        "j").1.length :=
  ⟨rfl, rfl, by decide⟩

/-- C6 amended: for every registered job, yielding an event whose step
is "done" terminates the stream (nothing is yielded after it) and
deregisters the job; the stream completes exactly when some queued event
has step "done", so an "error" event does not terminate it. -/
theorem c6_amended_done_terminates (jobs : List (String × List Msg))
    (j : String) (q : List Msg) (hq : lookupJob jobs j = some q) :
    (∀ pre m post, (event_stream jobs j).1 = pre ++ m :: post →
        m.step = some "done" → post = [])
    ∧ ((event_stream jobs j).2.1 = StreamEnd.completed ↔ ∃ m ∈ q, m.step = some "done")
    ∧ ((event_stream jobs j).2.1 = StreamEnd.completed →
        (event_stream jobs j).2.2 = removeJob jobs j) := by
  have hes : event_stream jobs j
      = ((drainQueue q).1,
         if (drainQueue q).2 then StreamEnd.completed else StreamEnd.awaitingForever,
         if (drainQueue q).2 then removeJob jobs j else jobs) := by
    unfold event_stream
    rw [hq]
  rw [hes]
  refine ⟨?_, ?_, ?_⟩
  · intro pre m post h hm
    exact drainQueue_done_last q pre m post h hm
  · by_cases hb : (drainQueue q).2
    · simp [hb]
      exact (drainQueue_broke_iff q).mp hb
    · simp [hb]
      intro m hm hd
      exact hb ((drainQueue_broke_iff q).mpr ⟨m, hm, hd⟩)
  · by_cases hb : (drainQueue q).2
    · simp [hb]
    · simp [hb]

/-- C6 amended witness: a registered job whose queue ends with the
terminal "done" message. -/
theorem c6_amended_done_terminates_witness :
    (∀ pre m post,
        (event_stream [("j", [{ step := some "progress", content := "p" }, doneMsg])] "j").1
          = pre ++ m :: post → m.step = some "done" → post = [])
    ∧ ((event_stream [("j", [{ step := some "progress", content := "p" }, doneMsg])] "j").2.1
          = StreamEnd.completed
        ↔ ∃ m ∈ [{ step := some "progress", content := "p" }, doneMsg], m.step = some "done")
    ∧ ((event_stream [("j", [{ step := some "progress", content := "p" }, doneMsg])] "j").2.1
          = StreamEnd.completed →
        (event_stream [("j", [{ step := some "progress", content := "p" }, doneMsg])] "j").2.2
          = removeJob [("j", [{ step := some "progress", content := "p" }, doneMsg])] "j") :=
  c6_amended_done_terminates [("j", [{ step := some "progress", content := "p" }, doneMsg])]
    "j" [{ step := some "progress", content := "p" }, doneMsg] rfl

/-- C7: at a patch-not-found input the ApplyDiff step catches the patch
engine's failure, but then crashes: the "null" sentinel survives into
json.loads, whose None result is subscripted, raising a TypeError that
escapes the step with no event published; the job layer then propagates
the exception and publishes no terminating event either. -/
theorem c7_patch_failure_escapes :
    applyDiffExec "a\nb\nc" (some "<<<<<<< SEARCH\nz\n=======\nq\n>>>>>>> REPLACE")
      = ([], ExecEnd.raised "TypeError: NoneType is not subscriptable")
    ∧ (run_agent_flow_async [] (Except.error "TypeError: NoneType is not subscriptable")).1
      = []
    ∧ (run_agent_flow_async [] (Except.error "TypeError: NoneType is not subscriptable")).2
      = some "TypeError: NoneType is not subscriptable" :=
  ⟨rfl, rfl, rfl⟩

/-- C8: a buffered model response that, after fence stripping, does not
begin with the SEARCH marker or does not end with the REPLACE marker is
recorded as a null diff rather than failing; and with a null diff the
ApplyDiff step publishes nothing (in particular no "edit_finished"
event), applies no patch, returns "finish" from execute and finalizes
with "done". -/
theorem c8_invalid_diff_null_noop (resp orig : String)
    (h : startsWithStr (stripDiffFences resp) searchMarker = false
        ∨ endsWithStr (stripDiffFences resp) replaceMarker = false) :
    modifySceneDiff resp = none
    ∧ applyDiffExec orig none = ([], ExecEnd.returned "finish")
    ∧ applyDiffPost (ExecEnd.returned "finish") = "done" := by
  refine ⟨?_, rfl, rfl⟩
  unfold modifySceneDiff
  rcases h with h | h <;> simp [h]

/-- C8 witness: the buffer "hello" strips to itself, starts with neither
marker, and is recorded as a null diff; the ApplyDiff step then no-ops. -/
theorem c8_invalid_diff_null_noop_witness :
    (startsWithStr (stripDiffFences "hello") searchMarker = false
      ∨ endsWithStr (stripDiffFences "hello") replaceMarker = false)
    ∧ (modifySceneDiff "hello" = none
      ∧ applyDiffExec "doc" none = ([], ExecEnd.returned "finish")
      ∧ applyDiffPost (ExecEnd.returned "finish") = "done") :=
  ⟨Or.inl rfl, c8_invalid_diff_null_noop "hello" "doc" (Or.inl rfl)⟩

/-- C9: applyDiff is deterministic — two calls on equal argument pairs
return equal results (no I/O and argument immutability hold by
construction of the pure functional model, matching the spec's contract
of a synchronous pure function of its two arguments). -/
theorem c9_applyDiff_deterministic (a b a2 b2 : String)
    (ha : a = a2) (hb : b = b2) :
    applyDiff a b = applyDiff a2 b2 := by
  rw [ha, hb]

/-- C9 witness: determinism at a concrete argument pair. -/
theorem c9_applyDiff_deterministic_witness :
    applyDiff "line1" "<<<<<<< SEARCH\nline1\n=======\nL\n>>>>>>> REPLACE"
      = applyDiff "line1" "<<<<<<< SEARCH\nline1\n=======\nL\n>>>>>>> REPLACE" :=
  c9_applyDiff_deterministic "line1" "<<<<<<< SEARCH\nline1\n=======\nL\n>>>>>>> REPLACE"
    "line1" "<<<<<<< SEARCH\nline1\n=======\nL\n>>>>>>> REPLACE" rfl rfl

/-- C10: a "replace" or "delete" operation whose 1-indexed line number
lies outside the document's line range leaves the line sequence
unchanged and raises no error, and an out-of-range "add" appends its
content at the end; likewise through apply_diff itself on the single
operation. -/
theorem c10_out_of_range_ops (s : String) (n : Int) (c : String)
    (h : ¬ (1 ≤ n ∧ n ≤ ((pySplitlines s).length : Int))) :
    applyLineMod (pySplitlines s) (LineMod.replace n c) = pySplitlines s
    ∧ applyLineMod (pySplitlines s) (LineMod.delete n) = pySplitlines s
    ∧ applyLineMod (pySplitlines s) (LineMod.add n c) = pySplitlines s ++ [c]
    ∧ apply_diff s [LineMod.replace n c] = joinLines (pySplitlines s)
    ∧ apply_diff s [LineMod.delete n] = joinLines (pySplitlines s)
    ∧ apply_diff s [LineMod.add n c] = joinLines (pySplitlines s ++ [c]) := by
  have hguard : ¬ (0 ≤ n - 1 ∧ n - 1 < ((pySplitlines s).length : Int)) := by omega
  have hr : applyLineMod (pySplitlines s) (LineMod.replace n c) = pySplitlines s := by
    simp only [applyLineMod]
    exact if_neg hguard
  have hd : applyLineMod (pySplitlines s) (LineMod.delete n) = pySplitlines s := by
    simp only [applyLineMod]
    exact if_neg hguard
  have ha : applyLineMod (pySplitlines s) (LineMod.add n c) = pySplitlines s ++ [c] := by
    simp only [applyLineMod]
    exact if_neg hguard
  refine ⟨hr, hd, ha, ?_, ?_, ?_⟩
  · rw [show apply_diff s [LineMod.replace n c]
        = joinLines (applyLineMod (pySplitlines s) (LineMod.replace n c)) from rfl, hr]
  · rw [show apply_diff s [LineMod.delete n]
        = joinLines (applyLineMod (pySplitlines s) (LineMod.delete n)) from rfl, hd]
  · rw [show apply_diff s [LineMod.add n c]
        = joinLines (applyLineMod (pySplitlines s) (LineMod.add n c)) from rfl, ha]

/-- C10 witness: the two-line document "a\nb" with the out-of-range line
number 5. -/
theorem c10_out_of_range_ops_witness :
    ¬ (1 ≤ (5 : Int) ∧ (5 : Int) ≤ ((pySplitlines "a\nb").length : Int))
    ∧ (applyLineMod (pySplitlines "a\nb") (LineMod.replace 5 "x") = pySplitlines "a\nb"
      ∧ applyLineMod (pySplitlines "a\nb") (LineMod.delete 5) = pySplitlines "a\nb"
      ∧ applyLineMod (pySplitlines "a\nb") (LineMod.add 5 "x") = pySplitlines "a\nb" ++ ["x"]
      ∧ apply_diff "a\nb" [LineMod.replace 5 "x"] = joinLines (pySplitlines "a\nb")
      ∧ apply_diff "a\nb" [LineMod.delete 5] = joinLines (pySplitlines "a\nb")
      ∧ apply_diff "a\nb" [LineMod.add 5 "x"] = joinLines (pySplitlines "a\nb" ++ ["x"])) :=
  ⟨by decide, c10_out_of_range_ops "a\nb" 5 "x" (by decide)⟩
